import Mathlib

/-!
Shallow embedding of `src/apps/common/middleware.py` (mozillians).

The file defines five Django middleware classes, each with a single
`process_response(request, response)` handler, plus a `safe_query_string`
context manager.  We model:

* HTTP responses as a record carrying the concrete Django response class
  (`kind`), the status code and an optional `Location` value;
* requests as a record with `path_info`, `path`, the emptiness of
  `request.GET`, the mutable `META['QUERY_STRING']` entry and the
  authentication state of `request.user`;
* the database as lists of `User`, `Group` and `GroupAlias` rows, with the
  Django ORM calls (`filter(...).exists()`, `get(...)`, `iexact`) embedded
  as list lookups;
* the framework utilities `is_valid_path`, `reverse('group', args=[u])`
  and `iri_to_uri` as abstract function parameters in an `Env` record.

Each `process_response` is a pure function from environment, database,
request and response to a result record holding the returned response, the
final request (the query-string entry is mutable inside
`safe_query_string`), the final database and the log lines emitted.
-/

namespace Mozillians

/-- The concrete Django response class of a response: the middleware
dispatches on `isinstance` checks against `HttpResponseForbidden`,
`HttpResponseNotAllowed` and builds redirects, so the class is data. -/
inductive ResponseKind where
  | forbidden
  | notAllowed
  | redirect
  | permanentRedirect
  | errorPage
  | other
deriving DecidableEq, Repr

/-- An HTTP response: its Django class, its status code, the `Location`
value when it is a redirect, and the error template number when it is the
generic error page. -/
structure Response where
  kind : ResponseKind
  status_code : Nat
  location : Option String := none
  template : Option Nat := none
deriving DecidableEq, Repr

/-- An HTTP request, with the fields the middleware reads:
`request.path_info`, `request.path`, whether `request.GET` is non-empty,
the `request.META['QUERY_STRING']` entry (mutable inside
`safe_query_string`) and `request.user.is_authenticated()`. -/
structure Request where
  path_info : String
  path : String
  GET_nonempty : Bool
  META_QUERY_STRING : String
  user_authenticated : Bool
deriving DecidableEq, Repr

/-- A row of the `User` model; only `username` is consulted. -/
structure User where
  username : String
deriving DecidableEq, Repr

/-- A row of the `Group` model; only `url` is consulted. -/
structure Group where
  url : String
deriving DecidableEq, Repr

/-- A row of the `GroupAlias` model: its own `url` field and the `url`
field of the `Group` row its `alias` foreign key points to. -/
structure GroupAlias where
  url : String
  alias_url : String
deriving DecidableEq, Repr

/-- The database state the three redirection middlewares consult. -/
structure DB where
  users : List User
  groups : List Group
  group_aliases : List GroupAlias
deriving DecidableEq, Repr

/-- Framework utilities the middleware calls, abstracted as functions:
`django.core.urlresolvers.is_valid_path`, `reverse('group', args=[u])`
and `django.utils.encoding.iri_to_uri`. -/
structure Env where
  is_valid_path : String → Bool
  reverse_group : String → String
  iri_to_uri : String → String

/-- Result of one `process_response` call: the response returned, the
request and database afterwards, and the debug log lines emitted. -/
structure MwResult where
  response : Response
  request : Request
  db : DB
  log : List String
deriving Repr

/-- `django.http.HttpResponseRedirect(url)`: a 302 redirect. -/
def HttpResponseRedirect (url : String) : Response :=
  { kind := ResponseKind.redirect, status_code := 302, location := some url }

/-- `django.http.HttpResponsePermanentRedirect(url)`: a 301 redirect. -/
def HttpResponsePermanentRedirect (url : String) : Response :=
  { kind := ResponseKind.permanentRedirect, status_code := 301, location := some url }

/-- Modelled from the spec: `error_page` is imported from the project's
`urls` module, which is not among the sources here.  Per the spec the 4xx
responses are converted into "a generic error page" while "passing through
framework HTTP status codes": it renders the generic error template for
the given template number and returns it with the given status code. -/
def error_page (request : Request) (template : Nat) (status : Nat) : Response :=
  { kind := ResponseKind.errorPage, status_code := status,
    location := none, template := some template }

/-- Python `s.endswith(t)`, on the character lists underlying the
strings so that the kernel can evaluate it on closed inputs. -/
def pyEndsWith (s t : String) : Bool :=
  t.data.isSuffixOf s.data

/-- Python `s.startswith(t)`, on the underlying character lists. -/
def pyStartsWith (s t : String) : Bool :=
  t.data.isPrefixOf s.data

/-- Python `s[n:]`: drop the first `n` characters. -/
def pyDrop (s : String) (n : Nat) : String :=
  String.mk (s.data.drop n)

/-- Python `s[:-1]`: drop the last character (identity on `""`). -/
def pyDropLast (s : String) : String :=
  String.mk s.data.dropLast

/-- Python `c in s` for a single character `c`. -/
def pyContainsChar (s : String) (c : Char) : Bool :=
  s.data.contains c

/-- Python `s.lower()`, character by character. -/
def pyLower (s : String) : String :=
  String.mk (s.data.map Char.toLower)

/-- Python `s.strip(c)`: remove every leading and trailing occurrence of
the character `c`.  Used for `request.path_info[1:].strip('/')`. -/
def pyStrip (s : String) (c : Char) : String :=
  String.mk (((s.data.dropWhile (fun x => x == c)).reverse.dropWhile
      (fun x => x == c)).reverse)

/-- Django `username__iexact`: case-insensitive string equality. -/
def iexact (a b : String) : Bool :=
  pyLower a == pyLower b

/-- `safe_query_string(request)` as a bracketing combinator: save
`META['QUERY_STRING']`, replace it by its `iri_to_uri` image, run the
body, and restore the saved value afterwards.  The body returns an
arbitrary `α` together with the request, so an exceptional exit is
modelled by instantiating `α` with an `Except` type; the restore in the
`finally` clause happens in either case. -/
def safe_query_string {α : Type} (iri_to_uri : String → String)
    (request : Request) (body : Request → α × Request) : α × Request :=
  let qs := request.META_QUERY_STRING
  let res := body { request with META_QUERY_STRING := iri_to_uri qs }
  (res.1, { res.2 with META_QUERY_STRING := qs })

namespace PermissionDeniedMiddleware

/-- `PermissionDeniedMiddleware.process_response`: if the response is an
`HttpResponseForbidden` or an `HttpResponseNotAllowed`, log a debug line
(depending on authentication state and response class) and return
`error_page(request, 500, status=response.status_code)`; otherwise return
the response unchanged. -/
def process_response (env : Env) (db : DB) (request : Request)
    (response : Response) : MwResult :=
  if response.kind == ResponseKind.forbidden
      || response.kind == ResponseKind.notAllowed then
    let log :=
      if request.user_authenticated then
        ["Permission denied middleware, user was authenticated, sending 500"]
      else if response.kind == ResponseKind.forbidden then
        ["Response was forbidden"]
      else if response.kind == ResponseKind.notAllowed then
        ["Response was not allowed"]
      else
        []
    { response := error_page request 500 response.status_code,
      request := request, db := db, log := log }
  else
    { response := response, request := request, db := db, log := [] }

end PermissionDeniedMiddleware

namespace RemoveSlashMiddleware

/-- `RemoveSlashMiddleware.process_response`: on a 404 whose `path_info`
ends with `'/'`, is not a valid path, and becomes a valid path once the
final character is dropped, redirect permanently to `request.path[:-1]`,
appending `'?' + META['QUERY_STRING']` (inside `safe_query_string`) when
`request.GET` is non-empty; otherwise return the response unchanged. -/
def process_response (env : Env) (db : DB) (request : Request)
    (response : Response) : MwResult :=
  if response.status_code == 404
      && pyEndsWith request.path_info "/"
      && !(env.is_valid_path request.path_info)
      && env.is_valid_path (pyDropLast request.path_info) then
    let newurl := pyDropLast request.path
    let (newurl, request) :=
      if request.GET_nonempty then
        safe_query_string env.iri_to_uri request
          (fun r => (newurl ++ "?" ++ r.META_QUERY_STRING, r))
      else
        (newurl, request)
    { response := HttpResponsePermanentRedirect newurl,
      request := request, db := db, log := [] }
  else
    { response := response, request := request, db := db, log := [] }

end RemoveSlashMiddleware

namespace UsernameRedirectionMiddleware

/-- `UsernameRedirectionMiddleware.process_response`: on a 404 whose
`path_info` does not start with `'/u/'` and is not a valid path, when some
`User` row has `username` case-insensitively equal to
`path_info[1:].strip('/')`, redirect (302) to `'/u' + path_info`,
appending the query string as in the other middlewares; otherwise return
the response unchanged. -/
def process_response (env : Env) (db : DB) (request : Request)
    (response : Response) : MwResult :=
  if response.status_code == 404
      && !(pyStartsWith request.path_info "/u/")
      && !(env.is_valid_path request.path_info)
      && db.users.any (fun u =>
           iexact u.username (pyStrip (pyDrop request.path_info 1) '/')) then
    let newurl := "/u" ++ request.path_info
    let (newurl, request) :=
      if request.GET_nonempty then
        safe_query_string env.iri_to_uri request
          (fun r => (newurl ++ "?" ++ r.META_QUERY_STRING, r))
      else
        (newurl, request)
    { response := HttpResponseRedirect newurl,
      request := request, db := db, log := [] }
  else
    { response := response, request := request, db := db, log := [] }

end UsernameRedirectionMiddleware

/-- The regex match `re.match('^/group/(?P<id>\d+)-(?P<url>[^/]+)$', s)`:
after the literal `'/group/'`, a non-empty maximal run of ASCII digits,
then `'-'`, then a non-empty remainder without `'/'` reaching the end of
the string.  Returns the `id` and `url` capture groups on a match. -/
def old_group_regex_match (s : String) : Option (String × String) :=
  if pyStartsWith s "/group/" then
    let rest := pyDrop s 7
    let id := String.mk (rest.data.takeWhile Char.isDigit)
    let after_id := pyDrop rest id.length
    if !id.isEmpty && pyStartsWith after_id "-" then
      let url := pyDrop after_id 1
      if !url.isEmpty && !(pyContainsChar url '/') then some (id, url)
      else none
    else
      none
  else
    none

/-- The regex match `re.match('^/group/(?P<url>[^/]+)$', s)`: after the
literal `'/group/'`, a non-empty remainder without `'/'`.  Returns the
`url` capture group on a match. -/
def group_alias_regex_match (s : String) : Option String :=
  if pyStartsWith s "/group/" then
    let url := pyDrop s 7
    if !url.isEmpty && !(pyContainsChar url '/') then some url else none
  else
    none

namespace OldGroupRedirectionMiddleware

/-- `OldGroupRedirectionMiddleware.process_response`: the source computes
`group_url = re.match('^/group/(?P<id>\d+)-(?P<url>[^/]+)$', path_info)`
and tests `status == 404 and group_url and
Group.objects.filter(url=group_url.group('url')).exists()`; on success it
redirects (302) to `reverse('group', args=[group_url.group('url')])` with
the query string appended, otherwise it returns the response unchanged. -/
def process_response (env : Env) (db : DB) (request : Request)
    (response : Response) : MwResult :=
  let group_url := old_group_regex_match request.path_info
  match group_url with
  | some (_id, url) =>
    if response.status_code == 404
        && db.groups.any (fun g => g.url == url) then
      let newurl := env.reverse_group url
      let (newurl, request) :=
        if request.GET_nonempty then
          safe_query_string env.iri_to_uri request
            (fun r => (newurl ++ "?" ++ r.META_QUERY_STRING, r))
        else
          (newurl, request)
      { response := HttpResponseRedirect newurl,
        request := request, db := db, log := [] }
    else
      { response := response, request := request, db := db, log := [] }
  | none =>
      { response := response, request := request, db := db, log := [] }

end OldGroupRedirectionMiddleware

namespace GroupAliasRedirectionMiddleware

/-- `GroupAliasRedirectionMiddleware.process_response`: the source computes
`group_url = re.match('^/group/(?P<url>[^/]+)$', path_info)` and tests
`status == 404 and group_url and
GroupAlias.objects.filter(url=group_url.group('url')).exists()`; on
success it fetches the alias with `GroupAlias.objects.get(url=...)` and
redirects (302) to `reverse('group', args=[group_alias.alias.url])` with
the query string appended, otherwise it returns the response unchanged.
`get` after a successful `exists` is embedded as `List.find?`; the `none`
branch (Django would raise `DoesNotExist`) is unreachable under the
`exists` guard. -/
def process_response (env : Env) (db : DB) (request : Request)
    (response : Response) : MwResult :=
  let group_url := group_alias_regex_match request.path_info
  match group_url with
  | some url =>
    if response.status_code == 404
        && db.group_aliases.any (fun g => g.url == url) then
      match db.group_aliases.find? (fun g => g.url == url) with
      | some group_alias =>
        let newurl := env.reverse_group group_alias.alias_url
        let (newurl, request) :=
          if request.GET_nonempty then
            safe_query_string env.iri_to_uri request
              (fun r => (newurl ++ "?" ++ r.META_QUERY_STRING, r))
          else
            (newurl, request)
        { response := HttpResponseRedirect newurl,
          request := request, db := db, log := [] }
      | none =>
          { response := response, request := request, db := db, log := [] }
    else
      { response := response, request := request, db := db, log := [] }
  | none =>
      { response := response, request := request, db := db, log := [] }

end GroupAliasRedirectionMiddleware

/-! Concrete sample environment, database, requests and responses, used to
instantiate the theorems below on closed inputs. -/

/-- A concrete environment: two valid paths, a canonical group URL scheme
and a query-string encoder that percent-encodes spaces. -/
def sampleEnv : Env :=
  { is_valid_path := fun s => s == "/about" || s == "/u/john",
    reverse_group := fun u => "/groups/" ++ u,
    iri_to_uri := fun s =>
      String.mk (s.data.flatMap
        (fun c => if c == ' ' then ['%', '2', '0'] else [c])) }

/-- A concrete database: one user, one group and one group alias. -/
def sampleDB : DB :=
  { users := [{ username := "john" }],
    groups := [{ url := "webdev" }],
    group_aliases := [{ url := "web", alias_url := "webdev" }] }

/-- A concrete `HttpResponseForbidden` (status 403). -/
def forbiddenResponse : Response :=
  { kind := ResponseKind.forbidden, status_code := 403 }

/-- A concrete `HttpResponseNotAllowed` (status 405). -/
def notAllowedResponse : Response :=
  { kind := ResponseKind.notAllowed, status_code := 405 }

/-- A concrete plain 404 response. -/
def notFoundResponse : Response :=
  { kind := ResponseKind.other, status_code := 404 }

/-- A concrete request for the trailing-slash middleware: `/about/` is not
valid, `/about` is, and the query string holds a space. -/
def slashRequest : Request :=
  { path_info := "/about/", path := "/en-US/about/", GET_nonempty := true,
    META_QUERY_STRING := "q=a b", user_authenticated := false }

/-- A concrete request for the username middleware: `/John/` matches user
`john` case-insensitively once the slashes are stripped. -/
def usernameRequest : Request :=
  { path_info := "/John/", path := "/John/", GET_nonempty := false,
    META_QUERY_STRING := "", user_authenticated := false }

/-- A concrete request for the old-group middleware: `/group/12-webdev`. -/
def oldGroupRequest : Request :=
  { path_info := "/group/12-webdev", path := "/group/12-webdev",
    GET_nonempty := false, META_QUERY_STRING := "",
    user_authenticated := false }

/-- A concrete request for the group-alias middleware: `/group/web`. -/
def groupAliasRequest : Request :=
  { path_info := "/group/web", path := "/group/web", GET_nonempty := false,
    META_QUERY_STRING := "", user_authenticated := false }

/-- C1: `PermissionDeniedMiddleware.process_response` returns the generic
error page exactly when the response is an `HttpResponseForbidden` or an
`HttpResponseNotAllowed`, and returns every other response unchanged. -/
theorem permission_denied_rewrites_forbidden_and_not_allowed
    (env : Env) (db : DB) (request : Request) (response : Response) :
    ((response.kind = ResponseKind.forbidden
        ∨ response.kind = ResponseKind.notAllowed) →
      (PermissionDeniedMiddleware.process_response env db request
          response).response
        = error_page request 500 response.status_code)
    ∧ (response.kind ≠ ResponseKind.forbidden →
       response.kind ≠ ResponseKind.notAllowed →
      (PermissionDeniedMiddleware.process_response env db request
          response).response
        = response) := by
  unfold PermissionDeniedMiddleware.process_response
  constructor
  · rintro (h | h) <;> simp [h]
  · intro h1 h2
    simp [h1, h2]

/-- Closed instance of C1: a forbidden response on a concrete request is
rewritten into the generic error page with status 403. -/
theorem permission_denied_rewrites_forbidden_and_not_allowed_witness :
    (PermissionDeniedMiddleware.process_response sampleEnv sampleDB
        slashRequest forbiddenResponse).response
      = error_page slashRequest 500 403 := by
  have h := (permission_denied_rewrites_forbidden_and_not_allowed sampleEnv
    sampleDB slashRequest forbiddenResponse).1 (Or.inl rfl)
  exact h

/-- C2: when `PermissionDeniedMiddleware.process_response` replaces a 4xx
response with the generic error page, the error page carries the status
code of the original response (403 stays 403, 405 stays 405); `500` is
only the template number, not the status. -/
theorem permission_denied_keeps_status_code
    (env : Env) (db : DB) (request : Request) (response : Response)
    (h : response.kind = ResponseKind.forbidden
        ∨ response.kind = ResponseKind.notAllowed) :
    (PermissionDeniedMiddleware.process_response env db request
        response).response.status_code = response.status_code
    ∧ (PermissionDeniedMiddleware.process_response env db request
        response).response.template = some 500 := by
  unfold PermissionDeniedMiddleware.process_response
  rcases h with h | h <;> simp [h, error_page]

/-- Closed instance of C2: 403 stays 403 and 405 stays 405. -/
theorem permission_denied_keeps_status_code_witness :
    (PermissionDeniedMiddleware.process_response sampleEnv sampleDB
        slashRequest forbiddenResponse).response.status_code = 403
    ∧ (PermissionDeniedMiddleware.process_response sampleEnv sampleDB
        slashRequest notAllowedResponse).response.status_code = 405 :=
  ⟨(permission_denied_keeps_status_code sampleEnv sampleDB slashRequest
      forbiddenResponse (Or.inl rfl)).1,
   (permission_denied_keeps_status_code sampleEnv sampleDB slashRequest
      notAllowedResponse (Or.inr rfl)).1⟩

/-- C9: the response returned by
`PermissionDeniedMiddleware.process_response` is the same whether or not
`request.user` is authenticated — two runs on requests differing only in
the authentication flag return the same response; authentication affects
only the log output. -/
theorem permission_denied_response_independent_of_authentication
    (env : Env) (db : DB) (request : Request) (response : Response)
    (a b : Bool) :
    (PermissionDeniedMiddleware.process_response env db
        { request with user_authenticated := a } response).response
      = (PermissionDeniedMiddleware.process_response env db
        { request with user_authenticated := b } response).response := by
  unfold PermissionDeniedMiddleware.process_response
  split <;> rfl

/-- C3: `RemoveSlashMiddleware.process_response` rewrites a 404 whose
`path_info` ends with `'/'`, is not a valid path, and is valid without the
final slash, into a permanent (301) redirect to `request.path` with its
final character (the trailing slash) removed, appending `'?'` and the
normalized query string when `request.GET` is non-empty; in every other
case it returns the given response unchanged. -/
theorem remove_slash_redirects_404_with_trailing_slash
    (env : Env) (db : DB) (request : Request) (response : Response) :
    ((response.status_code == 404
        && pyEndsWith request.path_info "/"
        && !(env.is_valid_path request.path_info)
        && env.is_valid_path (pyDropLast request.path_info)) = true →
      (RemoveSlashMiddleware.process_response env db request
          response).response
        = HttpResponsePermanentRedirect
            (if request.GET_nonempty then
               pyDropLast request.path ++ "?"
                 ++ env.iri_to_uri request.META_QUERY_STRING
             else pyDropLast request.path))
    ∧ ((response.status_code == 404
        && pyEndsWith request.path_info "/"
        && !(env.is_valid_path request.path_info)
        && env.is_valid_path (pyDropLast request.path_info)) = false →
      (RemoveSlashMiddleware.process_response env db request
          response).response
        = response) := by
  constructor <;> intro h <;>
    unfold RemoveSlashMiddleware.process_response
  · cases hg : request.GET_nonempty <;>
      simp [h, hg, safe_query_string]
  · simp [h]

/-- Closed instance of C3: `/about/` with query `q=a b` is permanently
redirected to `/en-US/about?q=a%20b`. -/
theorem remove_slash_redirects_404_with_trailing_slash_witness :
    (RemoveSlashMiddleware.process_response sampleEnv sampleDB slashRequest
        notFoundResponse).response
      = HttpResponsePermanentRedirect "/en-US/about?q=a%20b" := by
  have h := (remove_slash_redirects_404_with_trailing_slash sampleEnv
    sampleDB slashRequest notFoundResponse).1 (by decide)
  exact h.trans (by decide)

/-- C4: `UsernameRedirectionMiddleware.process_response` rewrites a 404
whose `path_info` does not start with `'/u/'` and is not a valid path,
when some `User` has a username case-insensitively equal to
`path_info[1:]` with surrounding slashes stripped, into a 302 redirect to
`'/u'` concatenated with `path_info` (plus `'?'` and the normalized query
string when `request.GET` is non-empty); otherwise it returns the given
response unchanged. -/
theorem username_redirection_redirects_profile_urls
    (env : Env) (db : DB) (request : Request) (response : Response) :
    ((response.status_code == 404
        && !(pyStartsWith request.path_info "/u/")
        && !(env.is_valid_path request.path_info)
        && db.users.any (fun u =>
             iexact u.username
               (pyStrip (pyDrop request.path_info 1) '/'))) = true →
      (UsernameRedirectionMiddleware.process_response env db request
          response).response
        = HttpResponseRedirect
            (if request.GET_nonempty then
               "/u" ++ request.path_info ++ "?"
                 ++ env.iri_to_uri request.META_QUERY_STRING
             else "/u" ++ request.path_info))
    ∧ ((response.status_code == 404
        && !(pyStartsWith request.path_info "/u/")
        && !(env.is_valid_path request.path_info)
        && db.users.any (fun u =>
             iexact u.username
               (pyStrip (pyDrop request.path_info 1) '/'))) = false →
      (UsernameRedirectionMiddleware.process_response env db request
          response).response
        = response) := by
  constructor <;> intro h <;>
    unfold UsernameRedirectionMiddleware.process_response
  · cases hg : request.GET_nonempty <;>
      simp [h, hg, safe_query_string]
  · simp [h]

/-- Closed instance of C4: `/John/` is redirected to `/u/John/` because
user `john` matches case-insensitively after stripping slashes. -/
theorem username_redirection_redirects_profile_urls_witness :
    (UsernameRedirectionMiddleware.process_response sampleEnv sampleDB
        usernameRequest notFoundResponse).response
      = HttpResponseRedirect "/u/John/" := by
  have h := (username_redirection_redirects_profile_urls sampleEnv sampleDB
    usernameRequest notFoundResponse).1 (by decide)
  exact h.trans (by decide)

/-- C5: `OldGroupRedirectionMiddleware.process_response` rewrites a 404
whose `path_info` matches `/group/<digits>-<url>` (with `<url>` free of
`'/'`), when some `Group` row has exactly that `url`, into a 302 redirect
to `reverse('group', args=[url])` (plus `'?'` and the normalized query
string when `request.GET` is non-empty); otherwise it returns the given
response unchanged. -/
theorem old_group_redirection_redirects_renamed_group_urls
    (env : Env) (db : DB) (request : Request) (response : Response) :
    (∀ id url,
      old_group_regex_match request.path_info = some (id, url) →
      (response.status_code == 404
          && db.groups.any (fun g => g.url == url)) = true →
      (OldGroupRedirectionMiddleware.process_response env db request
          response).response
        = HttpResponseRedirect
            (if request.GET_nonempty then
               env.reverse_group url ++ "?"
                 ++ env.iri_to_uri request.META_QUERY_STRING
             else env.reverse_group url))
    ∧ ((response.status_code == 404
          && (match old_group_regex_match request.path_info with
              | some (_, url) => db.groups.any (fun g => g.url == url)
              | none => false)) = false →
      (OldGroupRedirectionMiddleware.process_response env db request
          response).response
        = response) := by
  constructor
  · intro id url hm hc
    unfold OldGroupRedirectionMiddleware.process_response
    rw [hm]
    cases hg : request.GET_nonempty <;> simp [hc, hg, safe_query_string]
  · intro h
    unfold OldGroupRedirectionMiddleware.process_response
    rcases hm : old_group_regex_match request.path_info with _ | ⟨id, url⟩
    · simp
    · rw [hm] at h
      simp only [] at h
      simp [h]

/-- Closed instance of C5: `/group/12-webdev` is redirected to the
canonical URL `/groups/webdev` because group `webdev` exists. -/
theorem old_group_redirection_redirects_renamed_group_urls_witness :
    (OldGroupRedirectionMiddleware.process_response sampleEnv sampleDB
        oldGroupRequest notFoundResponse).response
      = HttpResponseRedirect "/groups/webdev" := by
  have h := (old_group_redirection_redirects_renamed_group_urls sampleEnv
    sampleDB oldGroupRequest notFoundResponse).1 "12" "webdev" (by decide)
    (by decide)
  exact h.trans (by decide)

/-- C6: `GroupAliasRedirectionMiddleware.process_response` rewrites a 404
whose `path_info` matches `/group/<url>` (with `<url>` free of `'/'`),
when a `GroupAlias` row has exactly that `url`, into a 302 redirect to
`reverse('group', args=[alias.url])` for the group that the alias points
to (plus `'?'` and the normalized query string when `request.GET` is
non-empty); otherwise it returns the given response unchanged. -/
theorem group_alias_redirection_redirects_alias_urls
    (env : Env) (db : DB) (request : Request) (response : Response) :
    (∀ url ga,
      group_alias_regex_match request.path_info = some url →
      (response.status_code == 404
          && db.group_aliases.any (fun g => g.url == url)) = true →
      db.group_aliases.find? (fun g => g.url == url) = some ga →
      (GroupAliasRedirectionMiddleware.process_response env db request
          response).response
        = HttpResponseRedirect
            (if request.GET_nonempty then
               env.reverse_group ga.alias_url ++ "?"
                 ++ env.iri_to_uri request.META_QUERY_STRING
             else env.reverse_group ga.alias_url))
    ∧ ((response.status_code == 404
          && (match group_alias_regex_match request.path_info with
              | some url => db.group_aliases.any (fun g => g.url == url)
              | none => false)) = false →
      (GroupAliasRedirectionMiddleware.process_response env db request
          response).response
        = response) := by
  constructor
  · intro url ga hm hc hf
    unfold GroupAliasRedirectionMiddleware.process_response
    rw [hm]
    cases hg : request.GET_nonempty <;>
      simp [hc, hf, hg, safe_query_string]
  · intro h
    unfold GroupAliasRedirectionMiddleware.process_response
    rcases hm : group_alias_regex_match request.path_info with _ | url
    · simp
    · rw [hm] at h
      simp only [] at h
      rcases hf : db.group_aliases.find? (fun g => g.url == url) with _ | ga
      · simp [h, hf]
      · simp [h, hf]

/-- Closed instance of C6: `/group/web` is redirected to `/groups/webdev`
through the alias row pointing `web` at group `webdev`. -/
theorem group_alias_redirection_redirects_alias_urls_witness :
    (GroupAliasRedirectionMiddleware.process_response sampleEnv sampleDB
        groupAliasRequest notFoundResponse).response
      = HttpResponseRedirect "/groups/webdev" := by
  have h := (group_alias_redirection_redirects_alias_urls sampleEnv
    sampleDB groupAliasRequest notFoundResponse).1 "web"
    { url := "web", alias_url := "webdev" } (by decide) (by decide)
    (by decide)
  exact h.trans (by decide)

/-- C7: inside the `safe_query_string` bracket the query-string entry of
the request equals `iri_to_uri` of the original query string, every
redirect URL built under it appends that normalized query string after
`'?'`, and after the bracket exits — normally or exceptionally (the body
returning an `Except` value) — the entry is restored to exactly its
original value. -/
theorem safe_query_string_normalizes_and_restores
    (iri : String → String) (request : Request) :
    (∀ (α : Type) (body : Request → α × Request),
      (safe_query_string iri request body).2.META_QUERY_STRING
        = request.META_QUERY_STRING)
    ∧ (∀ (ε β : Type) (body : Request → Except ε β × Request),
      (safe_query_string iri request body).2.META_QUERY_STRING
        = request.META_QUERY_STRING)
    ∧ (safe_query_string iri request
        (fun r => (r.META_QUERY_STRING, r))).1
        = iri request.META_QUERY_STRING
    ∧ (∀ (env : Env) (db : DB) (response : Response),
        env.iri_to_uri = iri →
        request.GET_nonempty = true →
        ((RemoveSlashMiddleware.process_response env db request
            response).response ≠ response →
          ∃ base,
            (RemoveSlashMiddleware.process_response env db request
                response).response.location
              = some (base ++ "?" ++ iri request.META_QUERY_STRING))
        ∧ ((UsernameRedirectionMiddleware.process_response env db request
            response).response ≠ response →
          ∃ base,
            (UsernameRedirectionMiddleware.process_response env db request
                response).response.location
              = some (base ++ "?" ++ iri request.META_QUERY_STRING))
        ∧ ((OldGroupRedirectionMiddleware.process_response env db request
            response).response ≠ response →
          ∃ base,
            (OldGroupRedirectionMiddleware.process_response env db request
                response).response.location
              = some (base ++ "?" ++ iri request.META_QUERY_STRING))
        ∧ ((GroupAliasRedirectionMiddleware.process_response env db
            request response).response ≠ response →
          ∃ base,
            (GroupAliasRedirectionMiddleware.process_response env db
                request response).response.location
              = some (base ++ "?" ++ iri request.META_QUERY_STRING))) := by
  refine ⟨fun α body => ?_, fun ε β body => ?_, rfl, ?_⟩
  · simp [safe_query_string]
  · simp [safe_query_string]
  · intro env db response hiri hGET
    subst hiri
    refine ⟨fun hne => ?_, fun hne => ?_, fun hne => ?_, fun hne => ?_⟩
    · unfold RemoveSlashMiddleware.process_response at hne ⊢
      cases hc : (response.status_code == 404
          && pyEndsWith request.path_info "/"
          && !(env.is_valid_path request.path_info)
          && env.is_valid_path (pyDropLast request.path_info))
      · rw [hc] at hne
        simp at hne
      · exact ⟨pyDropLast request.path,
          by simp [hc, hGET, safe_query_string, HttpResponsePermanentRedirect]⟩
    · unfold UsernameRedirectionMiddleware.process_response at hne ⊢
      cases hc : (response.status_code == 404
          && !(pyStartsWith request.path_info "/u/")
          && !(env.is_valid_path request.path_info)
          && db.users.any (fun u =>
               iexact u.username (pyStrip (pyDrop request.path_info 1) '/')))
      · rw [hc] at hne
        simp at hne
      · exact ⟨"/u" ++ request.path_info,
          by simp [hc, hGET, safe_query_string, HttpResponseRedirect]⟩
    · unfold OldGroupRedirectionMiddleware.process_response at hne ⊢
      rcases hm : old_group_regex_match request.path_info with _ | ⟨id, url⟩
      · simp [hm] at hne
      · cases hc : (response.status_code == 404
            && db.groups.any (fun g => g.url == url))
        · simp [hm, hc] at hne
        · exact ⟨env.reverse_group url,
            by simp [hc, hGET, safe_query_string, HttpResponseRedirect]⟩
    · unfold GroupAliasRedirectionMiddleware.process_response at hne ⊢
      rcases hm : group_alias_regex_match request.path_info with _ | url
      · simp [hm] at hne
      · cases hc : (response.status_code == 404
            && db.group_aliases.any (fun g => g.url == url))
        · simp [hm, hc] at hne
        · rcases hf : db.group_aliases.find? (fun g => g.url == url)
            with _ | ga
          · simp [hm, hc, hf] at hne
          · exact ⟨env.reverse_group ga.alias_url,
              by simp [hc, hf, hGET, safe_query_string, HttpResponseRedirect]⟩

/-- Closed instance of C7: the body observes the normalized query string,
and a concrete redirect appends it after a question mark. -/
theorem safe_query_string_normalizes_and_restores_witness :
    (safe_query_string sampleEnv.iri_to_uri slashRequest
        (fun r => (r.META_QUERY_STRING, r))).1 = "q=a%20b"
    ∧ ∃ base,
        (RemoveSlashMiddleware.process_response sampleEnv sampleDB
            slashRequest notFoundResponse).response.location
          = some (base ++ "?"
              ++ sampleEnv.iri_to_uri slashRequest.META_QUERY_STRING) := by
  have h := safe_query_string_normalizes_and_restores
    sampleEnv.iri_to_uri slashRequest
  refine ⟨h.2.2.1.trans (by decide), ?_⟩
  exact (h.2.2.2 sampleEnv sampleDB notFoundResponse rfl rfl).1 (by decide)

/-- C8: no `process_response` handler of the five middleware classes
changes the database: the `User`, `Group` and `GroupAlias` tables are the
same before and after any handler runs, every access being a read-only
lookup. -/
theorem middlewares_leave_database_unchanged
    (env : Env) (db : DB) (request : Request) (response : Response) :
    (PermissionDeniedMiddleware.process_response env db request
        response).db = db
    ∧ (RemoveSlashMiddleware.process_response env db request
        response).db = db
    ∧ (UsernameRedirectionMiddleware.process_response env db request
        response).db = db
    ∧ (OldGroupRedirectionMiddleware.process_response env db request
        response).db = db
    ∧ (GroupAliasRedirectionMiddleware.process_response env db request
        response).db = db := by
  refine ⟨?_, ?_, ?_, ?_, ?_⟩
  · unfold PermissionDeniedMiddleware.process_response
    repeat' split
    all_goals rfl
  · unfold RemoveSlashMiddleware.process_response
    repeat' split
    all_goals rfl
  · unfold UsernameRedirectionMiddleware.process_response
    repeat' split
    all_goals rfl
  · unfold OldGroupRedirectionMiddleware.process_response
    rcases old_group_regex_match request.path_info with _ | ⟨id, url⟩
    · rfl
    · dsimp only
      repeat' split
      all_goals rfl
  · unfold GroupAliasRedirectionMiddleware.process_response
    rcases group_alias_regex_match request.path_info with _ | url
    · rfl
    · dsimp only
      repeat' split
      all_goals rfl

/-- C10: when `UsernameRedirectionMiddleware` redirects, the username was
matched against `path_info` with its surrounding slashes stripped, but the
redirect target is `'/u'` plus the unmodified `path_info`: a `path_info`
carrying a trailing slash yields a target whose path part keeps that
trailing slash. -/
theorem username_redirection_keeps_trailing_slash
    (env : Env) (db : DB) (request : Request) (response : Response)
    (p : String) (hp : request.path_info = p ++ "/")
    (hcond : (response.status_code == 404
        && !(pyStartsWith request.path_info "/u/")
        && !(env.is_valid_path request.path_info)
        && db.users.any (fun u =>
             iexact u.username
               (pyStrip (pyDrop request.path_info 1) '/'))) = true) :
    (UsernameRedirectionMiddleware.process_response env db request
        response).response.location
      = some (if request.GET_nonempty then
                "/u" ++ request.path_info ++ "?"
                  ++ env.iri_to_uri request.META_QUERY_STRING
              else "/u" ++ request.path_info)
    ∧ ∃ q, "/u" ++ request.path_info = q ++ "/" := by
  constructor
  · unfold UsernameRedirectionMiddleware.process_response
    cases hg : request.GET_nonempty <;>
      simp [hcond, hg, safe_query_string, HttpResponseRedirect]
  · exact ⟨"/u" ++ p, by rw [hp, ← String.append_assoc]⟩

/-- Closed instance of C10: `/John/` carries a trailing slash, the lookup
matched the stripped name `John`, and the target `/u/John/` keeps the
trailing slash. -/
theorem username_redirection_keeps_trailing_slash_witness :
    (UsernameRedirectionMiddleware.process_response sampleEnv sampleDB
        usernameRequest notFoundResponse).response.location
      = some "/u/John/"
    ∧ ∃ q, "/u" ++ usernameRequest.path_info = q ++ "/" := by
  have h := username_redirection_keeps_trailing_slash sampleEnv sampleDB
    usernameRequest notFoundResponse "/John" (by decide) (by decide)
  exact ⟨h.1.trans (by decide), h.2⟩

end Mozillians
